import Mathlib

/-!
Verification of the peer connection lifecycle manager of the `securechat`
repository (src/components/Dashboard.tsx and src/components/LiveInterface.tsx).

The stateful React component is embedded as an explicit state machine: the
component's `useRef`/`useState` cells become fields of `DashState`
(respectively `LiveState`), every function of the component becomes a Lean
function `DashState → DashState` (with extra parameters for the values the
environment supplies, such as clock readings or whether a transport call
throws), and the event callbacks that the signaling library dispatches become
cases of an `Event` type interpreted by `step`.  Handles allocated by the
signaling library (data connections, timers, calls, media streams) are
numbered by `Nat` counters held in the state.  A few write-only
instrumentation fields (`connectCalls`, `reconnectCalls`, `initCalls`,
`destroyCalls`, `closedByUs`, `sentPayloads`, ...) record the calls the code
makes into its collaborators; no guard of the source reads them.
-/

/-- Attachment record, from src/types.ts lines 16-20. -/
structure Attachment where
  mimeType : String
  data : String
  name : String
deriving DecidableEq, Repr

/-- Message record, from src/types.ts lines 7-14 (the `type` field is the
`'text' | 'system'` discriminator). -/
structure Message where
  id : String
  senderId : String
  text : String
  attachments : List Attachment
  timestamp : Nat
  type : String
deriving DecidableEq, Repr

/-- The PeerJS peer object as far as Dashboard.tsx reads it: the only
property the component consults is `destroyed`. -/
structure Peer where
  destroyed : Bool
deriving DecidableEq, Repr

/-- State of the Dashboard component (src/components/Dashboard.tsx lines
13-23): the three refs `retryTimeoutRef`, `connectionRef`, `peerRef` and the
state cells `isConnected` and `messages`.  Connection handles and timers are
identified by `Nat`; `pendingTimers` is the set of timers scheduled via
`setTimeout` and neither fired nor cleared; `handledConns` are the connection
handles to which `setupConnection` attached its event handlers; `openConns`
is the transport-level `connection.open` flag per handle, read by the guards
at lines 95, 123 and 144.  The remaining fields are instrumentation recording
calls into collaborators. -/
structure DashState where
  retryTimeoutRef : Option Nat
  pendingTimers : List Nat
  nextTimerId : Nat
  connectionRef : Option Nat
  peer : Option Peer
  isConnected : Bool
  messages : List Message
  nextConnId : Nat
  handledConns : List Nat
  openConns : List Nat
  outboundConns : List Nat
  inboundConns : List Nat
  closedByUs : List Nat
  sentPayloads : List Message
  connectCalls : Nat
  reconnectCalls : Nat
  initCalls : Nat
  destroyCalls : Nat
deriving DecidableEq, Repr

/-- Number of connection handles currently registered as the active
connection: `connectionRef` is a single optional slot. -/
def activeConnections (s : DashState) : Nat :=
  match s.connectionRef with
  | some _ => 1
  | none => 0

/-- setupConnection, Dashboard.tsx lines 142-186.  If a registered handle
exists and its `open` flag is set, the argument is ignored (returned state
unchanged: it is neither adopted nor closed).  Otherwise the argument is
stored in `connectionRef` and its event handlers are attached (recorded in
`handledConns`); the handlers themselves are the `onConn...` functions
below, dispatched by `step`. -/
def setupConnection (s : DashState) (c : Nat) : DashState :=
  match s.connectionRef with
  | some h =>
    if h ∈ s.openConns then s
    else { s with connectionRef := some c, handledConns := s.handledConns ++ [c] }
  | none => { s with connectionRef := some c, handledConns := s.handledConns ++ [c] }

/-- connectToPeer, Dashboard.tsx lines 116-140.  Returns early if the peer is
absent or destroyed (line 117) or if any connection handle is already
registered, open or not (lines 122-130).  Otherwise allocates a fresh
outbound handle via `peer.connect` and hands it to `setupConnection`.
`connectCalls` counts every invocation of the function. -/
def connectToPeer (s : DashState) : DashState :=
  let s := { s with connectCalls := s.connectCalls + 1 }
  match s.peer with
  | none => s
  | some p =>
    if p.destroyed then s
    else
      match s.connectionRef with
      | some _ => s
      | none =>
        let h := s.nextConnId
        setupConnection
          { s with nextConnId := h + 1, outboundConns := s.outboundConns ++ [h] } h

/-- Handler for the `open` event of a connection handle (Dashboard.tsx lines
150-159), fired only for handles that `setupConnection` attached handlers to.
The transport sets the handle's `open` flag; the handler sets
`isConnected := true` and clears and nulls the referenced retry timer.  The
source handler does not check that the handle is still the registered one. -/
def onConnOpen (s : DashState) (h : Nat) : DashState :=
  let s := if h ∈ s.openConns then s else { s with openConns := s.openConns ++ [h] }
  if h ∈ s.handledConns then
    let s := { s with isConnected := true }
    match s.retryTimeoutRef with
    | some t =>
      { s with pendingTimers := s.pendingTimers.filter (fun x => x ≠ t),
               retryTimeoutRef := none }
    | none => s
  else s

/-- Handler for the `data` event (Dashboard.tsx lines 161-163): the payload
is appended to `messages` unconditionally; the source performs no check that
the delivering handle is still the registered connection. -/
def onConnData (s : DashState) (h : Nat) (m : Message) : DashState :=
  if h ∈ s.handledConns then { s with messages := s.messages ++ [m] } else s

/-- Handler for the `close` event (Dashboard.tsx lines 165-177).  The
transport clears the handle's `open` flag.  Only if the closing handle is the
registered one: `isConnected := false`, the reference is cleared, and when
the peer is alive and not destroyed a retry timer is scheduled — note the
source does not clear a previously pending timer here (line 174 overwrites
the ref without `clearTimeout`). -/
def onConnClose (s : DashState) (h : Nat) : DashState :=
  let s := { s with openConns := s.openConns.filter (fun x => x ≠ h) }
  if h ∈ s.handledConns then
    if s.connectionRef = some h then
      let s := { s with isConnected := false, connectionRef := none }
      match s.peer with
      | some p =>
        if p.destroyed then s
        else
          { s with pendingTimers := s.pendingTimers ++ [s.nextTimerId],
                   retryTimeoutRef := some s.nextTimerId,
                   nextTimerId := s.nextTimerId + 1 }
      | none => s
    else s
  else s

/-- Handler for the `error` event of a connection handle (Dashboard.tsx lines
179-185): only if the handle is still the registered one, `isConnected` is
cleared and the reference nulled; no retry is scheduled here. -/
def onConnError (s : DashState) (h : Nat) : DashState :=
  if h ∈ s.handledConns then
    if s.connectionRef = some h then
      { s with isConnected := false, connectionRef := none }
    else s
  else s

/-- Handler for the peer `error` event (Dashboard.tsx lines 89-113), keyed by
the error's `type` string.  `peer-unavailable`: clear a registered non-open
handle, set `isConnected := false`, clear any referenced pending timer and
schedule a fresh retry.  The four transport-fatal kinds: set
`isConnected := false` and call `peer.reconnect()` when the peer is not
destroyed; the source has no further branch when it is destroyed.  Any other
kind is logged and ignored. -/
def onPeerError (s : DashState) (kind : String) : DashState :=
  if kind = "peer-unavailable" then
    let s :=
      match s.connectionRef with
      | some h => if h ∈ s.openConns then s else { s with connectionRef := none }
      | none => s
    let s := { s with isConnected := false }
    let s :=
      match s.retryTimeoutRef with
      | some t => { s with pendingTimers := s.pendingTimers.filter (fun x => x ≠ t) }
      | none => s
    { s with pendingTimers := s.pendingTimers ++ [s.nextTimerId],
             retryTimeoutRef := some s.nextTimerId,
             nextTimerId := s.nextTimerId + 1 }
  else if kind = "network" ∨ kind = "disconnected" ∨ kind = "server-error"
      ∨ kind = "socket-error" then
    let s := { s with isConnected := false }
    match s.peer with
    | some p => if p.destroyed then s else { s with reconnectCalls := s.reconnectCalls + 1 }
    | none => s
  else s

/-- cleanupPeer, Dashboard.tsx lines 42-49: clears the referenced retry timer
(without nulling the ref), closes a registered connection handle, destroys
the peer, nulls `connectionRef` and `peerRef`, and sets
`isConnected := false`. -/
def cleanupPeer (s : DashState) : DashState :=
  let s :=
    match s.retryTimeoutRef with
    | some t => { s with pendingTimers := s.pendingTimers.filter (fun x => x ≠ t) }
    | none => s
  let s :=
    match s.connectionRef with
    | some h => { s with closedByUs := s.closedByUs ++ [h] }
    | none => s
  let s :=
    match s.peer with
    | some _ => { s with destroyCalls := s.destroyCalls + 1 }
    | none => s
  { s with connectionRef := none, peer := none, isConnected := false }

/-- initializePeer, Dashboard.tsx lines 51-114: tears down an existing peer,
then creates a fresh one and attaches its event handlers (the `onPeer...`
and `onConn...` functions, dispatched by `step`).  `initCalls` counts every
invocation. -/
def initializePeer (s : DashState) : DashState :=
  let s := { s with initCalls := s.initCalls + 1 }
  let s :=
    match s.peer with
    | some _ => cleanupPeer s
    | none => s
  { s with peer := some { destroyed := false } }

/-- Exit paths of sendMessage (Dashboard.tsx lines 193-214) as an
instrumented outcome: `silentSkip` is the guard's bare `return` at line 194,
`delivered` the successful try branch, `caughtInternally` the catch branch. -/
inductive SendOutcome where
  | silentSkip
  | delivered
  | caughtInternally
deriving DecidableEq, Repr

/-- Whether an exit path of the source sendMessage surfaces an error to its
caller.  The guard path is a bare `return;` (line 194), the success path
falls off the end of the function, and a transmission exception is caught by
the try/catch at lines 205-213 and not rethrown — every path returns
normally, so no path reports an error to the caller. -/
def reportsToCaller : SendOutcome → Bool
  | .silentSkip => false
  | .delivered => false
  | .caughtInternally => false

/-- Construction of the outgoing message, Dashboard.tsx lines 196-203.  The
object literal is evaluated field by field: `id` is the decimal string of one
`Date.now()` reading (`now1`) and `timestamp` is a second, later `Date.now()`
reading (`now2`). -/
def mkMessage (senderId : String) (now1 now2 : Nat) (text : String)
    (atts : List Attachment) : Message :=
  { id := Nat.repr now1, senderId := senderId, text := text,
    attachments := atts, timestamp := now2, type := "text" }

/-- sendMessage, Dashboard.tsx lines 193-214.  Guard: bare return when no
connection handle is registered or `isConnected` is false.  Otherwise the
message is built and `connection.send` is attempted; `transmitOk = false`
means the transport threw, in which case nothing was transmitted, the log is
untouched, `isConnected` is cleared and `connectToPeer` is invoked from the
catch block. -/
def sendMessage (s : DashState) (senderId : String) (now1 now2 : Nat)
    (text : String) (atts : List Attachment) (transmitOk : Bool) :
    DashState × SendOutcome :=
  if s.connectionRef.isNone || !s.isConnected then (s, .silentSkip)
  else
    let msg := mkMessage senderId now1 now2 text atts
    if transmitOk then
      ({ s with sentPayloads := s.sentPayloads ++ [msg],
                messages := s.messages ++ [msg] }, .delivered)
    else
      (connectToPeer { s with isConnected := false }, .caughtInternally)

/-- Events the environment can dispatch to the Dashboard component: the peer
lifecycle events of Dashboard.tsx lines 71-113, the connection handle events
attached in setupConnection, the firing of a scheduled retry timer (whose
callback is `connectToPeer`, lines 103-105 and 174), the destruction of the
peer object by the signaling library on a fatal error, a user send, and the
teardown on unmount or identity change. -/
inductive Event where
  | peerOpen
  | incomingConn
  | peerError (kind : String)
  | connOpen (h : Nat)
  | connData (h : Nat) (m : Message)
  | connClose (h : Nat)
  | connError (h : Nat)
  | timerFire (t : Nat)
  | envPeerDestroyed
  | userSend (senderId : String) (now1 now2 : Nat) (text : String)
      (atts : List Attachment) (transmitOk : Bool)
  | userCleanup
deriving DecidableEq, Repr

/-- One event dispatch.  Peer events fire only while a peer object exists;
an incoming connection allocates a fresh inbound handle and runs
`setupConnection` (Dashboard.tsx lines 78-81); a timer may fire only while
pending, is consumed, and runs `connectToPeer`. -/
def step (s : DashState) (e : Event) : DashState :=
  match e with
  | .peerOpen => if s.peer.isSome then connectToPeer s else s
  | .incomingConn =>
    if s.peer.isSome then
      let h := s.nextConnId
      setupConnection
        { s with nextConnId := h + 1, inboundConns := s.inboundConns ++ [h] } h
    else s
  | .peerError kind => if s.peer.isSome then onPeerError s kind else s
  | .connOpen h => onConnOpen s h
  | .connData h m => onConnData s h m
  | .connClose h => onConnClose s h
  | .connError h => onConnError s h
  | .timerFire t =>
    if t ∈ s.pendingTimers then
      connectToPeer { s with pendingTimers := s.pendingTimers.filter (fun x => x ≠ t) }
    else s
  | .envPeerDestroyed =>
    match s.peer with
    | some _ => { s with peer := some { destroyed := true } }
    | none => s
  | .userSend sid n1 n2 t a ok => (sendMessage s sid n1 n2 t a ok).1
  | .userCleanup => cleanupPeer s

/-- The component's refs and state cells before the mount effect runs
(Dashboard.tsx lines 13-23: all refs null, no messages, not connected). -/
def initState : DashState :=
  { retryTimeoutRef := none, pendingTimers := [], nextTimerId := 0,
    connectionRef := none, peer := none, isConnected := false,
    messages := [], nextConnId := 0, handledConns := [], openConns := [],
    outboundConns := [], inboundConns := [], closedByUs := [],
    sentPayloads := [], connectCalls := 0, reconnectCalls := 0,
    initCalls := 0, destroyCalls := 0 }

/-- State right after mount: the effect at Dashboard.tsx lines 28-40 runs
`initializePeer`. -/
def boot : DashState := initializePeer initState

/-- Interpretation of an event trace starting from the mounted component. -/
def run (es : List Event) : DashState := es.foldl step boot

/-- State of the LiveInterface component (src/components/LiveInterface.tsx
lines 10-20): the state cells `callActive`, `isScreenSharing`, `callStatus`
and the refs `localStreamRef` and `callRef`, plus the `incomingCall` prop the
Dashboard passes down (Dashboard.tsx lines 17 and 83-87, 312-313).  Call
handles and media streams are numbered by `Nat`; instrumentation fields
record calls into the signaling and media collaborators (`placedCalls` for
`peer.call`, `answeredCalls` for `call.answer`, `closedCalls` for
`call.close`, `stoppedStreams` for stopping the local stream's tracks). -/
structure LiveState where
  callActive : Bool
  isScreenSharing : Bool
  callStatus : String
  callRef : Option Nat
  localStream : Option Nat
  stoppedStreams : List Nat
  handledCalls : List Nat
  answeredCalls : List Nat
  placedCalls : List Nat
  closedCalls : List Nat
  nextCallId : Nat
  peerPresent : Bool
  incomingCall : Option Nat
deriving DecidableEq, Repr

/-- startLocalStream, LiveInterface.tsx lines 41-54.  The media provider
either yields a stream (`ok = true`), which is stored in `localStreamRef` and
returned, or fails, in which case the status is set to the media error string
of line 51 and null is returned. -/
def startLocalStream (s : LiveState) (ok : Bool) (streamId : Nat) :
    LiveState × Option Nat :=
  if ok then ({ s with localStream := some streamId }, some streamId)
  else ({ s with callStatus := "Error: Could not access camera/mic" }, none)

/-- setupCallEventHandlers, LiveInterface.tsx lines 75-93: registers the call
handle, marks the call active with status Connected, and attaches the
`stream`, `close` and `error` handlers. -/
def setupCallEventHandlers (s : LiveState) (c : Nat) : LiveState :=
  { s with callRef := some c, callActive := true, callStatus := "Connected",
           handledCalls := s.handledCalls ++ [c] }

/-- startCall, LiveInterface.tsx lines 56-64: sets the status, acquires the
local stream, returns early when acquisition failed or no peer is available,
otherwise places the outbound call via `peer.call` and attaches handlers. -/
def startCall (s : LiveState) (mediaOk : Bool) (streamId : Nat) : LiveState :=
  let s := { s with callStatus := "Starting stream..." }
  let r := startLocalStream s mediaOk streamId
  let s := r.1
  match r.2 with
  | none => s
  | some _ =>
    if s.peerPresent then
      let c := s.nextCallId
      let s := { s with callStatus := "Calling...", nextCallId := c + 1,
                        placedCalls := s.placedCalls ++ [c] }
      setupCallEventHandlers s c
    else s

/-- answerCall, LiveInterface.tsx lines 66-73: acquires the local stream and,
only on success, answers the incoming call and attaches handlers. -/
def answerCall (s : LiveState) (c : Nat) (mediaOk : Bool) (streamId : Nat) :
    LiveState :=
  let s := { s with callStatus := "Answering..." }
  let r := startLocalStream s mediaOk streamId
  let s := r.1
  match r.2 with
  | none => s
  | some _ =>
    let s := { s with answeredCalls := s.answeredCalls ++ [c] }
    setupCallEventHandlers s c

/-- endCall, LiveInterface.tsx lines 95-107: closes the registered call
handle, stops the local stream's tracks, resets the active and screen-share
flags and the status, nulls the call ref, and via `onCallEnd` clears the
Dashboard's `incomingCall` (Dashboard.tsx line 313). -/
def endCall (s : LiveState) : LiveState :=
  let s :=
    match s.callRef with
    | some c => { s with closedCalls := s.closedCalls ++ [c] }
    | none => s
  let s :=
    match s.localStream with
    | some st => { s with stoppedStreams := s.stoppedStreams ++ [st] }
    | none => s
  { s with callActive := false, isScreenSharing := false,
           callStatus := "Call ended", callRef := none, incomingCall := none }

/-- Arrival of an incoming call: the Dashboard handler stores it
(Dashboard.tsx lines 83-87) and the LiveInterface effect at lines 34-39
answers it only when no call is active. -/
def onIncomingCall (s : LiveState) (c : Nat) (mediaOk : Bool) (streamId : Nat) :
    LiveState :=
  let s := { s with incomingCall := some c }
  if s.callActive then s else answerCall s c mediaOk streamId

/-- Initial LiveInterface state (LiveInterface.tsx lines 11-20, mounted with
a live peer and no pending incoming call). -/
def liveInit : LiveState :=
  { callActive := false, isScreenSharing := false, callStatus := "Ready to call",
    callRef := none, localStream := none, stoppedStreams := [], handledCalls := [],
    answeredCalls := [], placedCalls := [], closedCalls := [], nextCallId := 0,
    peerPresent := true, incomingCall := none }

/-- A stale-handle payload used by the counterexample trace for the
stale-event claim. -/
def staleMsg : Message := mkMessage "guest" 1 1 "stale" []

/-- Trace in which handle 0 is registered, then cleared by its own error
event, and then delivers a data payload while no longer registered. -/
def staleTrace : List Event :=
  [Event.peerOpen, Event.connError 0, Event.connData 0 staleMsg]

/-- C1: at-most-one-connection invariant.  `connectionRef` is a single
optional slot, so at most one handle is registered at any time; a
`connectToPeer` attempt while any handle is registered (Connecting or Open)
changes nothing but the invocation counter — no new outbound handle is
created and the registered handle is untouched; and `setupConnection` on an
incoming connection while the registered handle is Open returns the state
unchanged — the incoming handle is neither adopted nor closed. -/
theorem C1_at_most_one_connection (s : DashState) (h c : Nat) :
    (s.connectionRef = some h →
      connectToPeer s = { s with connectCalls := s.connectCalls + 1 }) ∧
    (s.connectionRef = some h → h ∈ s.openConns → setupConnection s c = s) ∧
    activeConnections s ≤ 1 := by
  refine ⟨fun hc => ?_, fun hc hop => ?_, ?_⟩
  · unfold connectToPeer
    cases hp : s.peer with
    | none => simp [hp]
    | some p => cases hd : p.destroyed <;> simp [hp, hd, hc]
  · unfold setupConnection
    simp [hc, hop]
  · unfold activeConnections
    cases s.connectionRef <;> simp

/-- Witness for C1 at the reachable state in which outbound handle 0 is
registered and open. -/
theorem C1_at_most_one_connection_witness :
    connectToPeer (run [Event.peerOpen, Event.connOpen 0]) =
      { run [Event.peerOpen, Event.connOpen 0] with
        connectCalls := (run [Event.peerOpen, Event.connOpen 0]).connectCalls + 1 } ∧
    setupConnection (run [Event.peerOpen, Event.connOpen 0]) 5 =
      run [Event.peerOpen, Event.connOpen 0] ∧
    activeConnections (run [Event.peerOpen, Event.connOpen 0]) ≤ 1 :=
  ⟨(C1_at_most_one_connection (run [Event.peerOpen, Event.connOpen 0]) 0 5).1 (by decide),
   (C1_at_most_one_connection (run [Event.peerOpen, Event.connOpen 0]) 0 5).2.1
     (by decide) (by decide),
   (C1_at_most_one_connection (run [Event.peerOpen, Event.connOpen 0]) 0 5).2.2⟩

/-- C2 counterexample: in the reachable trace `staleTrace`, handle 0 is
registered, then cleared by its own error event (so afterwards it is a
superseded or closed handle and `connectionRef` is `none`), and its
subsequent `data` event nevertheless appends the payload to the message log
— refuting the claim that a data payload is appended only while the
delivering handle is still the registered active connection. -/
theorem C2_stale_data_counterexample :
    (run [Event.peerOpen, Event.connError 0]).connectionRef = none ∧
    (run staleTrace).messages = [staleMsg] ∧
    (run [Event.peerOpen, Event.connError 0]).messages = [] := by
  exact ⟨by decide, by decide, by decide⟩

/-- C2 (amended): stale `close` and `error` events are immune — a close or
error event of a handle that is not the currently registered connection
leaves the connection reference, connected flag, message log and retry state
unchanged — but `data` events carry no staleness check: every handle that
ever had handlers attached appends its payload to the log, and a stale `open`
event likewise sets the connected flag. -/
theorem C2_stale_event_immunity (s : DashState) (h : Nat) (m : Message) :
    (s.connectionRef ≠ some h →
      (onConnClose s h).connectionRef = s.connectionRef ∧
      (onConnClose s h).isConnected = s.isConnected ∧
      (onConnClose s h).messages = s.messages ∧
      (onConnClose s h).pendingTimers = s.pendingTimers ∧
      (onConnClose s h).retryTimeoutRef = s.retryTimeoutRef) ∧
    (s.connectionRef ≠ some h → onConnError s h = s) ∧
    (h ∈ s.handledConns → (onConnData s h m).messages = s.messages ++ [m]) ∧
    (h ∈ s.handledConns → (onConnOpen s h).isConnected = true) := by
  refine ⟨fun hne => ?_, fun hne => ?_, fun hmem => ?_, fun hmem => ?_⟩
  · unfold onConnClose
    by_cases hmem : h ∈ s.handledConns <;> simp [hmem, hne]
  · unfold onConnError
    by_cases hmem : h ∈ s.handledConns <;> simp [hmem, hne]
  · unfold onConnData
    simp [hmem]
  · unfold onConnOpen
    by_cases ho : h ∈ s.openConns <;>
      cases hr : s.retryTimeoutRef <;> simp [ho, hmem, hr]

/-- Witness for the amended C2 at a state in which handle 0 is handled but
handle 1 is the registered connection. -/
theorem C2_stale_event_immunity_witness :
    (onConnClose (run [Event.peerOpen, Event.peerError "peer-unavailable",
        Event.incomingConn]) 0).messages =
      (run [Event.peerOpen, Event.peerError "peer-unavailable",
        Event.incomingConn]).messages ∧
    onConnError (run [Event.peerOpen, Event.peerError "peer-unavailable",
        Event.incomingConn]) 0 =
      run [Event.peerOpen, Event.peerError "peer-unavailable", Event.incomingConn] ∧
    (onConnData (run [Event.peerOpen, Event.peerError "peer-unavailable",
        Event.incomingConn]) 0 staleMsg).messages =
      (run [Event.peerOpen, Event.peerError "peer-unavailable",
        Event.incomingConn]).messages ++ [staleMsg] :=
  ⟨((C2_stale_event_immunity (run [Event.peerOpen, Event.peerError "peer-unavailable",
      Event.incomingConn]) 0 staleMsg).1 (by decide)).2.2.1,
   (C2_stale_event_immunity (run [Event.peerOpen, Event.peerError "peer-unavailable",
      Event.incomingConn]) 0 staleMsg).2.1 (by decide),
   (C2_stale_event_immunity (run [Event.peerOpen, Event.peerError "peer-unavailable",
      Event.incomingConn]) 0 staleMsg).2.2.1 (by decide)⟩

/-- C3 counterexample: after a fatal `network` error arriving while the peer
object is destroyed, the handler only clears the connected flag — it neither
calls `reconnect` (counter stays 0) nor performs any reinitialization (the
initialization counter keeps the single mount-time value), refuting the
claim that a destroyed handle triggers a full reinitialization. -/
theorem C3_fatal_error_counterexample :
    (run [Event.envPeerDestroyed, Event.peerError "network"]).peer =
      some { destroyed := true } ∧
    (run [Event.envPeerDestroyed, Event.peerError "network"]).isConnected = false ∧
    (run [Event.envPeerDestroyed, Event.peerError "network"]).reconnectCalls = 0 ∧
    (run [Event.envPeerDestroyed, Event.peerError "network"]).initCalls =
      (run [Event.envPeerDestroyed]).initCalls := by
  exact ⟨by decide, by decide, by decide, by decide⟩

/-- C3 (amended): for every signaling error of kind network, disconnected,
server-error or socket-error the manager sets connected to false; it invokes
the handle's reconnect capability exactly when the handle is not destroyed,
and when the handle is destroyed it does nothing further — in particular no
reinitialization is performed. -/
theorem C3_transport_fatal_handling (s : DashState) (p : Peer) (kind : String)
    (hp : s.peer = some p)
    (hk : kind = "network" ∨ kind = "disconnected" ∨ kind = "server-error"
      ∨ kind = "socket-error") :
    (p.destroyed = false →
      onPeerError s kind =
        { s with isConnected := false, reconnectCalls := s.reconnectCalls + 1 }) ∧
    (p.destroyed = true →
      onPeerError s kind = { s with isConnected := false }) := by
  have hne : kind ≠ "peer-unavailable" := by
    rcases hk with h | h | h | h <;> simp [h]
  unfold onPeerError
  rw [if_neg hne, if_pos hk]
  constructor
  · intro hd; simp [hp, hd]
  · intro hd; simp [hp, hd]

/-- Witness for the amended C3: a live peer receiving a `socket-error` and a
destroyed peer receiving a `network` error. -/
theorem C3_transport_fatal_handling_witness :
    onPeerError boot "socket-error" =
      { boot with isConnected := false, reconnectCalls := boot.reconnectCalls + 1 } ∧
    onPeerError (run [Event.envPeerDestroyed]) "network" =
      { run [Event.envPeerDestroyed] with isConnected := false } :=
  ⟨(C3_transport_fatal_handling boot { destroyed := false } "socket-error"
      (by decide) (Or.inr (Or.inr (Or.inr rfl)))).1 rfl,
   (C3_transport_fatal_handling (run [Event.envPeerDestroyed]) { destroyed := true }
      "network" (by decide) (Or.inl rfl)).2 rfl⟩

/-- C4 counterexample: at the mounted state `boot` no connection handle is
registered, yet `sendMessage` is a silent no-op — it returns the state
unchanged and no error of any kind reaches the caller (every exit path of the
source returns normally), refuting the claim that the failure is reported to
the caller as a NotConnected error. -/
theorem C4_send_counterexample :
    boot.connectionRef = none ∧
    sendMessage boot "aryaveer" 5 5 "hi" [] true = (boot, SendOutcome.silentSkip) ∧
    reportsToCaller (sendMessage boot "aryaveer" 5 5 "hi" [] true).2 = false := by
  exact ⟨by decide, by decide, by decide⟩

/-- C4 (amended): when no connection handle is registered or the connected
flag is down, `sendMessage` silently returns — the state is unchanged,
nothing is transmitted, and no error is surfaced to the caller; when a handle
is registered and connected and transmission does not throw, the constructed
message is transmitted verbatim over the connection and that same message is
appended to the local log. -/
theorem C4_send_contract (s : DashState) (sid : String) (n1 n2 : Nat)
    (text : String) (atts : List Attachment) (ok : Bool) :
    ((s.connectionRef = none ∨ s.isConnected = false) →
      sendMessage s sid n1 n2 text atts ok = (s, SendOutcome.silentSkip) ∧
      reportsToCaller SendOutcome.silentSkip = false) ∧
    (s.connectionRef.isSome → s.isConnected = true →
      sendMessage s sid n1 n2 text atts true =
        ({ s with sentPayloads := s.sentPayloads ++ [mkMessage sid n1 n2 text atts],
                  messages := s.messages ++ [mkMessage sid n1 n2 text atts] },
         SendOutcome.delivered)) := by
  constructor
  · intro hg
    unfold sendMessage
    rcases hg with hg | hg
    · simp [hg, reportsToCaller]
    · simp [hg, reportsToCaller]
  · intro hc hi
    unfold sendMessage
    simp [Option.isNone_iff_eq_none, Option.ne_none_iff_isSome.mpr hc, hi]

/-- Witness for the amended C4: the silent-skip branch at the mounted state
and the delivery branch at a state with an open registered connection. -/
theorem C4_send_contract_witness :
    sendMessage boot "guest" 7 8 "hello" [] true = (boot, SendOutcome.silentSkip) ∧
    sendMessage (run [Event.peerOpen, Event.connOpen 0]) "guest" 7 8 "hello" [] true =
      ({ run [Event.peerOpen, Event.connOpen 0] with
          sentPayloads := (run [Event.peerOpen, Event.connOpen 0]).sentPayloads
            ++ [mkMessage "guest" 7 8 "hello" []],
          messages := (run [Event.peerOpen, Event.connOpen 0]).messages
            ++ [mkMessage "guest" 7 8 "hello" []] },
       SendOutcome.delivered) :=
  ⟨((C4_send_contract boot "guest" 7 8 "hello" [] true).1 (Or.inl (by decide))).1,
   (C4_send_contract (run [Event.peerOpen, Event.connOpen 0]) "guest" 7 8 "hello" []
      true).2 (by decide) (by decide)⟩

/-- C5 counterexample: in a reachable trace a `peer-unavailable` error
schedules retry timer 0, an inbound connection is adopted, and its `close`
event then schedules retry timer 1 without first canceling timer 0 (the
source overwrites the timer ref without `clearTimeout`), leaving two retry
timers outstanding at once — refuting the claim that at most one retry timer
is outstanding at any time and that a newly scheduled retry first cancels
any pending one. -/
theorem C5_two_outstanding_timers_counterexample :
    (run [Event.peerOpen, Event.peerError "peer-unavailable", Event.incomingConn,
        Event.connClose 1]).pendingTimers = [0, 1] ∧
    ¬ (run [Event.peerOpen, Event.peerError "peer-unavailable", Event.incomingConn,
        Event.connClose 1]).pendingTimers.length ≤ 1 := by
  exact ⟨by decide, by decide⟩

/-- C5 (amended): each `peer-unavailable` failure schedules exactly one new
retry and cancels the referenced pending timer first, and a handled
connection's `open` event cancels and clears the referenced pending timer;
however, the retry scheduled by the `close` handler does not cancel a pending
timer first, so two retry timers can be outstanding simultaneously. -/
theorem C5_retry_scheduling (s : DashState) (t h : Nat) :
    (s.retryTimeoutRef = some t →
      (onPeerError s "peer-unavailable").pendingTimers =
        (s.pendingTimers.filter (fun x => x ≠ t)) ++ [s.nextTimerId] ∧
      (onPeerError s "peer-unavailable").retryTimeoutRef = some s.nextTimerId) ∧
    (s.retryTimeoutRef = none →
      (onPeerError s "peer-unavailable").pendingTimers =
        s.pendingTimers ++ [s.nextTimerId] ∧
      (onPeerError s "peer-unavailable").retryTimeoutRef = some s.nextTimerId) ∧
    (h ∈ s.handledConns → s.retryTimeoutRef = some t →
      (onConnOpen s h).retryTimeoutRef = none ∧
      (onConnOpen s h).pendingTimers = s.pendingTimers.filter (fun x => x ≠ t)) := by
  refine ⟨fun ht => ?_, fun ht => ?_, fun hmem ht => ?_⟩
  · cases hc : s.connectionRef with
    | none => simp [onPeerError, hc, ht]
    | some h2 =>
      by_cases ho : h2 ∈ s.openConns <;> simp [onPeerError, hc, ho, ht]
  · cases hc : s.connectionRef with
    | none => simp [onPeerError, hc, ht]
    | some h2 =>
      by_cases ho : h2 ∈ s.openConns <;> simp [onPeerError, hc, ho, ht]
  · by_cases ho : h ∈ s.openConns <;> simp [onConnOpen, ho, hmem, ht]

/-- Witness for the amended C5 at the reachable state with pending timer 0
referenced and handle 1 handled. -/
theorem C5_retry_scheduling_witness :
    (onPeerError (run [Event.peerOpen, Event.peerError "peer-unavailable",
        Event.incomingConn]) "peer-unavailable").pendingTimers = [1] ∧
    (onConnOpen (run [Event.peerOpen, Event.peerError "peer-unavailable",
        Event.incomingConn]) 1).retryTimeoutRef = none ∧
    (onConnOpen (run [Event.peerOpen, Event.peerError "peer-unavailable",
        Event.incomingConn]) 1).pendingTimers = [] := by
  have h1 := (C5_retry_scheduling (run [Event.peerOpen,
    Event.peerError "peer-unavailable", Event.incomingConn]) 0 1).1 (by decide)
  have h3 := (C5_retry_scheduling (run [Event.peerOpen,
    Event.peerError "peer-unavailable", Event.incomingConn]) 0 1).2.2
    (by decide) (by decide)
  refine ⟨?_, h3.1, ?_⟩
  · rw [h1.1]; decide
  · rw [h3.2]; decide

/-- C6 counterexample: after a retry timer has been scheduled, `cleanupPeer`
cancels the timer (nothing remains pending) but leaves `retryTimeoutRef`
holding the stale timer id — the timer reference is not nulled, refuting the
claim that all owned references (connection, peer, and timer) are nulled. -/
theorem C6_timer_ref_not_nulled_counterexample :
    (run [Event.peerOpen, Event.peerError "peer-unavailable",
        Event.userCleanup]).pendingTimers = [] ∧
    (run [Event.peerOpen, Event.peerError "peer-unavailable",
        Event.userCleanup]).retryTimeoutRef = some 0 ∧
    (run [Event.peerOpen, Event.peerError "peer-unavailable",
        Event.userCleanup]).retryTimeoutRef ≠ none := by
  exact ⟨by decide, by decide, by decide⟩

/-- C6 (amended): `cleanupPeer` is idempotent and never errors (it is a total
function and a second application is the identity on its result); after any
call the referenced retry timer is canceled, a registered connection handle
has been closed, a live signaling handle has been destroyed, the connection
and peer references are nulled and connected is false — but `retryTimeoutRef`
keeps its old value rather than being nulled. -/
theorem C6_teardown_idempotent (s : DashState) :
    cleanupPeer (cleanupPeer s) = cleanupPeer s ∧
    (cleanupPeer s).connectionRef = none ∧
    (cleanupPeer s).peer = none ∧
    (cleanupPeer s).isConnected = false ∧
    (∀ t, s.retryTimeoutRef = some t → t ∉ (cleanupPeer s).pendingTimers) ∧
    (∀ h, s.connectionRef = some h → h ∈ (cleanupPeer s).closedByUs) ∧
    (s.peer.isSome → (cleanupPeer s).destroyCalls = s.destroyCalls + 1) ∧
    (cleanupPeer s).retryTimeoutRef = s.retryTimeoutRef := by
  cases hr : s.retryTimeoutRef <;> cases hc : s.connectionRef <;>
    cases hp : s.peer <;>
      simp [cleanupPeer, hr, hc, hp, List.filter_filter, List.mem_filter]

/-- Witness for the amended C6 at the reachable state with pending timer 0
referenced, handle 1 registered and the peer alive. -/
theorem C6_teardown_idempotent_witness :
    cleanupPeer (cleanupPeer (run [Event.peerOpen,
        Event.peerError "peer-unavailable", Event.incomingConn])) =
      cleanupPeer (run [Event.peerOpen, Event.peerError "peer-unavailable",
        Event.incomingConn]) ∧
    (0 : Nat) ∉ (cleanupPeer (run [Event.peerOpen,
        Event.peerError "peer-unavailable", Event.incomingConn])).pendingTimers ∧
    (1 : Nat) ∈ (cleanupPeer (run [Event.peerOpen,
        Event.peerError "peer-unavailable", Event.incomingConn])).closedByUs ∧
    (cleanupPeer (run [Event.peerOpen, Event.peerError "peer-unavailable",
        Event.incomingConn])).destroyCalls =
      (run [Event.peerOpen, Event.peerError "peer-unavailable",
        Event.incomingConn]).destroyCalls + 1 :=
  ⟨(C6_teardown_idempotent (run [Event.peerOpen, Event.peerError "peer-unavailable",
      Event.incomingConn])).1,
   (C6_teardown_idempotent (run [Event.peerOpen, Event.peerError "peer-unavailable",
      Event.incomingConn])).2.2.2.2.1 0 (by decide),
   (C6_teardown_idempotent (run [Event.peerOpen, Event.peerError "peer-unavailable",
      Event.incomingConn])).2.2.2.2.2.1 1 (by decide),
   (C6_teardown_idempotent (run [Event.peerOpen, Event.peerError "peer-unavailable",
      Event.incomingConn])).2.2.2.2.2.2.1 (by decide)⟩

/-- C7: when acquiring the local media stream fails during an outbound call
attempt, the only change to the state is the media-error status string — the
call never becomes active, no outbound call is placed via the signaling
handle, and no call handle is registered. -/
theorem C7_media_failure_outbound (s : LiveState) (streamId : Nat)
    (ha : s.callActive = false) (hr : s.callRef = none) :
    startCall s false streamId =
      { s with callStatus := "Error: Could not access camera/mic" } ∧
    (startCall s false streamId).callActive = false ∧
    (startCall s false streamId).callRef = none ∧
    (startCall s false streamId).placedCalls = s.placedCalls := by
  have h : startCall s false streamId =
      { s with callStatus := "Error: Could not access camera/mic" } := by
    simp [startCall, startLocalStream]
  exact ⟨h, by rw [h]; exact ha, by rw [h]; exact hr, by rw [h]⟩

/-- Witness for C7 at the initial LiveInterface state. -/
theorem C7_media_failure_outbound_witness :
    startCall liveInit false 0 =
      { liveInit with callStatus := "Error: Could not access camera/mic" } ∧
    (startCall liveInit false 0).callActive = false ∧
    (startCall liveInit false 0).callRef = none ∧
    (startCall liveInit false 0).placedCalls = liveInit.placedCalls :=
  C7_media_failure_outbound liveInit 0 (by decide) (by decide)

/-- C8: an incoming call arriving while a call is active is only recorded in
the `incomingCall` cell and is not answered; the active call handle, the
active flag, the status and the set of answered calls are all undisturbed,
and ending the active call discards the recorded incoming call without
answering it. -/
theorem C8_at_most_one_call (s : LiveState) (c : Nat) (mediaOk : Bool)
    (streamId : Nat) (ha : s.callActive = true) :
    onIncomingCall s c mediaOk streamId = { s with incomingCall := some c } ∧
    (onIncomingCall s c mediaOk streamId).callRef = s.callRef ∧
    (onIncomingCall s c mediaOk streamId).callActive = true ∧
    (onIncomingCall s c mediaOk streamId).callStatus = s.callStatus ∧
    (onIncomingCall s c mediaOk streamId).answeredCalls = s.answeredCalls ∧
    (endCall (onIncomingCall s c mediaOk streamId)).incomingCall = none := by
  have h : onIncomingCall s c mediaOk streamId = { s with incomingCall := some c } := by
    simp [onIncomingCall, ha]
  refine ⟨h, by rw [h], by rw [h]; exact ha, by rw [h], by rw [h], ?_⟩
  rw [h]
  cases hcr : s.callRef <;> cases hls : s.localStream <;> simp [endCall, hcr, hls]

/-- Witness for C8 at the state reached by a successful outbound call. -/
theorem C8_at_most_one_call_witness :
    onIncomingCall (startCall liveInit true 0) 7 true 1 =
      { startCall liveInit true 0 with incomingCall := some 7 } ∧
    (onIncomingCall (startCall liveInit true 0) 7 true 1).answeredCalls =
      (startCall liveInit true 0).answeredCalls ∧
    (endCall (onIncomingCall (startCall liveInit true 0) 7 true 1)).incomingCall =
      none :=
  ⟨(C8_at_most_one_call (startCall liveInit true 0) 7 true 1 (by decide)).1,
   (C8_at_most_one_call (startCall liveInit true 0) 7 true 1 (by decide)).2.2.2.2.1,
   (C8_at_most_one_call (startCall liveInit true 0) 7 true 1 (by decide)).2.2.2.2.2⟩

/-- C9: when transmission throws inside `sendMessage` (while a handle is
registered and connected), the message log and the transmitted-payload record
are unchanged — the failed message is not appended — the connected flag is
cleared, and `sendMessage` itself invokes `connectToPeer` (the invocation
counter increases by one); since a handle is still registered, that reconnect
attempt changes nothing else. -/
theorem C9_send_failure_atomicity (s : DashState) (sid : String) (n1 n2 : Nat)
    (text : String) (atts : List Attachment)
    (hc : s.connectionRef.isSome) (hi : s.isConnected = true) :
    (sendMessage s sid n1 n2 text atts false).1.messages = s.messages ∧
    (sendMessage s sid n1 n2 text atts false).1.sentPayloads = s.sentPayloads ∧
    (sendMessage s sid n1 n2 text atts false).1.isConnected = false ∧
    (sendMessage s sid n1 n2 text atts false).1.connectCalls = s.connectCalls + 1 ∧
    (sendMessage s sid n1 n2 text atts false).2 = SendOutcome.caughtInternally := by
  cases hco : s.connectionRef with
  | none => rw [hco] at hc; simp at hc
  | some h =>
    have hsend : sendMessage s sid n1 n2 text atts false =
        (connectToPeer { s with isConnected := false }, SendOutcome.caughtInternally) := by
      unfold sendMessage
      simp [hco, hi]
    rw [hsend]
    refine ⟨?_, ?_, ?_, ?_, rfl⟩ <;>
      · unfold connectToPeer
        cases hp : s.peer with
        | none => simp [hp]
        | some p => cases hd : p.destroyed <;> simp [hp, hd, hco]

/-- Witness for C9 at a state with an open registered connection, with a
throwing transmission. -/
theorem C9_send_failure_atomicity_witness :
    (sendMessage (run [Event.peerOpen, Event.connOpen 0]) "guest" 7 8 "hello" []
        false).1.messages = (run [Event.peerOpen, Event.connOpen 0]).messages ∧
    (sendMessage (run [Event.peerOpen, Event.connOpen 0]) "guest" 7 8 "hello" []
        false).1.isConnected = false ∧
    (sendMessage (run [Event.peerOpen, Event.connOpen 0]) "guest" 7 8 "hello" []
        false).1.connectCalls =
      (run [Event.peerOpen, Event.connOpen 0]).connectCalls + 1 :=
  ⟨(C9_send_failure_atomicity (run [Event.peerOpen, Event.connOpen 0]) "guest" 7 8
      "hello" [] (by decide) (by decide)).1,
   (C9_send_failure_atomicity (run [Event.peerOpen, Event.connOpen 0]) "guest" 7 8
      "hello" [] (by decide) (by decide)).2.2.1,
   (C9_send_failure_atomicity (run [Event.peerOpen, Event.connOpen 0]) "guest" 7 8
      "hello" [] (by decide) (by decide)).2.2.2.1⟩

/-- C10: the id of every message constructed by `sendMessage` is the decimal
string of the clock reading taken for the id field; two messages whose id
clock readings fall in the same millisecond receive equal ids (ids are not
unique); and because the timestamp field is sampled by a separate, later
clock reading, the id can differ from the decimal string of the timestamp
(exhibited at readings 0 and 1); the constructed message is exactly what a
connected `sendMessage` appends to the log. -/
theorem C10_message_id_derivation (s : DashState) (sid sid2 : String)
    (n1 n2 n1b n2b : Nat) (text text2 : String) (atts atts2 : List Attachment) :
    (mkMessage sid n1 n2 text atts).id = Nat.repr n1 ∧
    (n1 = n1b →
      (mkMessage sid n1 n2 text atts).id = (mkMessage sid2 n1b n2b text2 atts2).id) ∧
    (mkMessage sid 0 1 text atts).id ≠
      Nat.repr (mkMessage sid 0 1 text atts).timestamp ∧
    (s.connectionRef.isSome → s.isConnected = true →
      (sendMessage s sid n1 n2 text atts true).1.messages =
        s.messages ++ [mkMessage sid n1 n2 text atts]) := by
  refine ⟨rfl, fun he => by simp [mkMessage, he], by simp only [mkMessage]; decide, fun hc hi => ?_⟩
  cases hco : s.connectionRef with
  | none => rw [hco] at hc; simp at hc
  | some h => unfold sendMessage; simp [hco, hi]

/-- Witness for C10: equal millisecond readings give equal ids, and a
connected send appends the constructed message. -/
theorem C10_message_id_derivation_witness :
    (mkMessage "guest" 5 5 "a" []).id = Nat.repr 5 ∧
    (mkMessage "guest" 5 5 "a" []).id = (mkMessage "aryaveer" 5 9 "b" []).id ∧
    (mkMessage "guest" 0 1 "a" []).id ≠
      Nat.repr (mkMessage "guest" 0 1 "a" []).timestamp ∧
    (sendMessage (run [Event.peerOpen, Event.connOpen 0]) "guest" 5 5 "a" []
        true).1.messages =
      (run [Event.peerOpen, Event.connOpen 0]).messages ++ [mkMessage "guest" 5 5 "a" []] :=
  ⟨(C10_message_id_derivation boot "guest" "aryaveer" 5 5 5 9 "a" "b" [] []).1,
   (C10_message_id_derivation boot "guest" "aryaveer" 5 5 5 9 "a" "b" [] []).2.1 rfl,
   (C10_message_id_derivation boot "guest" "aryaveer" 5 5 5 9 "a" "b" [] []).2.2.1,
   (C10_message_id_derivation (run [Event.peerOpen, Event.connOpen 0]) "guest"
      "aryaveer" 5 5 5 9 "a" "b" [] []).2.2.2 (by decide) (by decide)⟩
